import Mathlib

/-!
Verification of the device registry and notification-dispatch manager of
`meross_iot/manager.py` (class `MerossManager`).

The manager is shallowly embedded as pure Lean functions over an explicit
state record `MState`.  External collaborators (the HTTP discovery client,
the device factory, the MQTT transport and the observer callbacks) are
modelled through the narrow interfaces the manager consumes, following
section 6 of the specification: the discovery client is a fixed descriptor
table, the factory builds handle records carrying exactly the fields the
manager reads, and callback invocations are recorded in logs.

Lock acquisition and every call out of the manager (into a collaborator or
into a registered callback) are additionally recorded in an execution
trace, so that the lock-discipline claims can be stated over traces.

Python operations that can raise (`parent_hub.uuid` on `None`,
`split('/')[2]` on a short origin path) are embedded in `Except`.
-/

/-- Errors the embedded Python code can raise. -/
inductive PyErr
  | attributeError
  | indexError
deriving DecidableEq

/-- The two locks of the manager: `_devices_lock` and `_event_callbacks_lock`. -/
inductive Lk
  | devLk
  | evtLk
deriving DecidableEq

/-- One atomic step of the execution trace: lock operations, calls into an
external collaborator (HTTP client, device factory, device-handle methods,
connection-status checks), and invocations of a registered callback. -/
inductive TAct
  | acquire (l : Lk)
  | release (l : Lk)
  | extCall (tag : String)
  | cbInvoke
deriving DecidableEq

/-- A device descriptor as returned by the HTTP discovery collaborator: a
dictionary whose optional fields model Python key presence
(`'deviceType' in dev` is `deviceType.isSome`). -/
structure Descriptor where
  deviceType : Option String
  uuid : Option String
  subDeviceType : Option String
  subDeviceId : Option String
  onlineStatus : Int
  devName : String
deriving DecidableEq

/-- A device handle built by the device-factory collaborator.  The manager
reads only: object identity (allocation number `hid`), `uuid`, `name`,
`type`, `online`, and whether the object is a `GenericHub` instance
(`isHub`).  `parentHid` records which hub handle a sub-device wrapper was
built against. -/
structure Handle where
  hid : Nat
  typeTag : String
  uuid : String
  name : String
  isHub : Bool
  online : Bool
  parentHid : Option Nat
deriving DecidableEq

/-- Calls issued to the HTTP discovery collaborator. -/
inductive HttpCall
  | listDevices
  | listHubSubdevices (uuid : String)
deriving DecidableEq, BEq

/-- The external collaborators as consumed by the manager (spec section 6):
the HTTP client's two queries, and the device factory's classification of
type tags into hub types (which class `build_wrapper` instantiates). -/
structure Collaborators where
  list_devices : List Descriptor
  list_hub_subdevices : String → List Descriptor
  isHubType : String → Bool

/-- The manager state: the `_devices` dictionary, the handle-allocation
counter, the list of registered event callbacks (`_event_callbacks`,
callbacks named by numbers), and observation logs — lifecycle events fired,
`device.register_event_callback` calls, HTTP calls issued, push
notifications delivered to handles, warnings logged, and the execution
trace. -/
structure MState where
  devices : List (String × Handle)
  counter : Nat
  eventCallbacks : List Nat
  firedEvents : List (Nat × Bool)
  cbRegs : List (Nat × Nat)
  httpCalls : List HttpCall
  pushDeliveries : List (Nat × String × String × Bool)
  warnings : Nat
  trace : List TAct
deriving DecidableEq

/-- The empty manager state (`__init__`). -/
def mstate0 : MState :=
  { devices := [], counter := 0, eventCallbacks := [], firedEvents := [],
    cbRegs := [], httpCalls := [], pushDeliveries := [], warnings := 0, trace := [] }

/-- Python `dict.get`: first binding whose key equals `k`. -/
def dictGet (m : List (String × Handle)) (k : String) : Option Handle :=
  (m.find? (fun p => p.1 == k)).map (fun p => p.2)

/-- Python `k in dict`. -/
def dictContains (m : List (String × Handle)) (k : String) : Bool :=
  m.any (fun p => p.1 == k)

/-- Python `dict[k] = v`: replace the binding in place if the key is
present (keys are unique, so the first occurrence is the only one),
otherwise append it. -/
def dictSet : List (String × Handle) → String → Handle → List (String × Handle)
  | [], k, v => [(k, v)]
  | p :: t, k, v => if p.1 == k then (k, v) :: t else p :: dictSet t k v

/-- Modelled from the spec: the external device-factory collaborator's
`build_wrapper` (spec section 6, `build_device`).  It returns a fresh
handle; which class it instantiates (hub or not) is the factory's
classification of the type tag, kept abstract as `co.isHubType`.  The
handle carries the descriptor fields the manager later reads. -/
def build_wrapper (co : Collaborators) (ctr : Nat) (device_type device_uuid : String)
    (device_specs : Descriptor) : Handle :=
  { hid := ctr, typeTag := device_type, uuid := device_uuid,
    name := device_specs.devName, isHub := co.isHubType device_type,
    online := device_specs.onlineStatus == 1, parentHid := none }

/-- Modelled from the spec: the external device-factory collaborator's
`build_subdevice_wrapper` (spec section 6, `build_subdevice`).  Sub-device
wrappers are not hub instances; the parent hub handle it was built against
is recorded. -/
def build_subdevice_wrapper (ctr : Nat) (device_type device_id : String)
    (parent_hub : Handle) (device_specs : Descriptor) : Handle :=
  { hid := ctr, typeTag := device_type, uuid := device_id,
    name := device_specs.devName, isHub := false,
    online := device_specs.onlineStatus == 1, parentHid := some parent_hub.hid }

/-- `_fire_event` as seen from discovery (manager.py:201-206): every
currently registered callback is invoked with the event.  Callbacks here
are opaque external observers, so the fan-out is recorded as one
fired-event entry plus one unlocked callback invocation per registered
callback; the fan-out's internal semantics (live-list iteration, error
isolation) is modelled in full by `Bus.fire_event` below. -/
def fire_event (s : MState) (hid : Nat) (online : Bool) : MState :=
  { s with firedEvents := s.firedEvents ++ [(hid, online)],
           trace := s.trace ++ s.eventCallbacks.map (fun _ => TAct.cbInvoke) }

/-- Lines 181-197 of `_handle_device_discovered`: under `_devices_lock`,
check `d_id not in self._devices` and, if absent, store the handle under
`device_id`; for a new handle, register every known callback on it under
`_event_callbacks_lock`, then fire the online lifecycle event outside both
locks.  Note the code checks membership of `d_id` but inserts under
`device_id`. -/
def insertAndAnnounce (s : MState) (d_id device_id : String) (device : Handle) :
    MState × Option Handle :=
  let pair :=
    if !(dictContains s.devices d_id) then
      ({ s with devices := dictSet s.devices device_id device,
                trace := s.trace ++ [TAct.acquire Lk.devLk, TAct.release Lk.devLk] }, true)
    else
      ({ s with trace := s.trace ++ [TAct.acquire Lk.devLk, TAct.release Lk.devLk] }, false)
  let s1 := pair.1
  if pair.2 then
    let s2 := { s1 with
      cbRegs := s1.cbRegs ++ s1.eventCallbacks.map (fun c => (device.hid, c)),
      trace := s1.trace ++ [TAct.acquire Lk.evtLk]
        ++ s1.eventCallbacks.map (fun _ => TAct.extCall "device.register_event_callback")
        ++ [TAct.release Lk.evtLk] }
    (fire_event s2 device.hid device.online, some device)
  else
    (s1, some device)

/-- `_handle_device_discovered` (manager.py:159-199).  Full-device shape
takes priority; the sub-device branch evaluates `parent_hub.uuid`, which on
a missing parent is Python `None.uuid`, an `AttributeError`; descriptors
matching neither shape are logged (warning) and skipped (`None` returned). -/
def handle_device_discovered (co : Collaborators) (s : MState) (dev : Descriptor)
    (parent_hub : Option Handle) : Except PyErr (MState × Option Handle) :=
  match dev.deviceType, dev.uuid with
  | some d_type, some d_id =>
    let device := build_wrapper co s.counter d_type d_id dev
    let s1 := { s with counter := s.counter + 1,
                       trace := s.trace ++ [TAct.extCall "build_wrapper"] }
    Except.ok (insertAndAnnounce s1 d_id d_id device)
  | _, _ =>
    match dev.subDeviceType, dev.subDeviceId with
    | some d_type, some d_id =>
      match parent_hub with
      | none => Except.error PyErr.attributeError
      | some ph =>
        let device_id := ph.uuid ++ ":" ++ d_id
        let device := build_subdevice_wrapper s.counter d_type d_id ph dev
        let s1 := { s with counter := s.counter + 1,
                           trace := s.trace ++ [TAct.extCall "build_subdevice_wrapper"] }
        Except.ok (insertAndAnnounce s1 d_id device_id device)
    | _, _ => Except.ok ({ s with warnings := s.warnings + 1 }, none)

/-- Lines 154-155: the inner loop over `list_hub_subdevices` results, each
reconciled with the hub as parent. -/
def subdevicesLoop (co : Collaborators) (parent : Handle) (s : MState) :
    List Descriptor → Except PyErr MState
  | [] => Except.ok s
  | sd :: rest =>
    match handle_device_discovered co s sd (some parent) with
    | Except.error e => Except.error e
    | Except.ok (s1, _) => subdevicesLoop co parent s1 rest

/-- Lines 142-156: the loop of `_discover_devices` over `list_devices`
results: skip not-online descriptors when `online_only`, reconcile each
descriptor, and whenever the returned handle is a `GenericHub` instance,
query and reconcile its sub-devices. -/
def discoverLoop (co : Collaborators) (online_only : Bool) (s : MState) :
    List Descriptor → Except PyErr MState
  | [] => Except.ok s
  | dev :: rest =>
    if online_only && dev.onlineStatus != 1 then
      discoverLoop co online_only s rest
    else
      match handle_device_discovered co s dev none with
      | Except.error e => Except.error e
      | Except.ok (s1, discovered) =>
        match discovered with
        | some dv =>
          if dv.isHub then
            let s2 := { s1 with
              httpCalls := s1.httpCalls ++ [HttpCall.listHubSubdevices dv.uuid],
              trace := s1.trace ++ [TAct.extCall "http.list_hub_subdevices"] }
            match subdevicesLoop co dv s2 (co.list_hub_subdevices dv.uuid) with
            | Except.error e => Except.error e
            | Except.ok s3 => discoverLoop co online_only s3 rest
          else discoverLoop co online_only s1 rest
        | none => discoverLoop co online_only s1 rest

/-- `_discover_devices` (manager.py:136-157): one discovery pass. -/
def discover_devices (co : Collaborators) (online_only : Bool) (s : MState) :
    Except PyErr MState :=
  let s1 := { s with httpCalls := s.httpCalls ++ [HttpCall.listDevices],
                     trace := s.trace ++ [TAct.extCall "http.list_devices"] }
  discoverLoop co online_only s1 co.list_devices

/-- An inbound push message: `header['from']`, `header['namespace']`, and
the payload (kept opaque as a string). -/
structure PushMessage where
  fromField : String
  nsField : String
  payload : String
deriving DecidableEq

/-- Python `str.split('/')`: split at every slash, keeping empty segments
(so an origin path `/appliance/u/publish` yields segments
`["", "appliance", "u", "publish"]`). -/
def splitSlash : List Char → List (List Char)
  | [] => [[]]
  | c :: rest =>
    let r := splitSlash rest
    if c = '/' then [] :: r
    else
      match r with
      | h :: t => (c :: h) :: t
      | [] => [[c]]

/-- `_dispatch_push_notification` (manager.py:108-134): extract the origin
device identity as segment 2 of `header['from'].split('/')` (an unchecked
index, `IndexError` on short paths), look it up under `_devices_lock`, and
either deliver namespace/payload/self-origin flag to the handle or run a
full discovery pass with the default `online_only=False`. -/
def dispatch_push_notification (co : Collaborators) (s : MState) (message : PushMessage)
    (from_myself : Bool) : Except PyErr MState :=
  match (splitSlash message.fromField.data).get? 2 with
  | none => Except.error PyErr.indexError
  | some seg =>
    let dev_uuid := String.mk seg
    let s1 := { s with trace := s.trace ++ [TAct.acquire Lk.devLk, TAct.release Lk.devLk] }
    match dictGet s1.devices dev_uuid with
    | some device =>
      Except.ok { s1 with
        pushDeliveries := s1.pushDeliveries ++ [(device.hid, message.nsField, message.payload, from_myself)],
        trace := s1.trace ++ [TAct.extCall "device.handle_push_notification"] }
    | none => discover_devices co false s1

/-- `_ensure_started` (manager.py:208-210): query the transport's
connection status (an external call) and log a warning when it is not
SUBSCRIBED; nothing is raised either way. -/
def ensure_started (connected : Bool) (s : MState) : MState :=
  let s1 := { s with trace := s.trace ++ [TAct.extCall "connection_status.check_status"] }
  if !connected then { s1 with warnings := s1.warnings + 1 } else s1

/-- `get_device_by_uuid` (manager.py:68-75). -/
def get_device_by_uuid (connected : Bool) (s : MState) (uuid : String) :
    MState × Option Handle :=
  let s1 := ensure_started connected s
  let s2 := { s1 with trace := s1.trace ++ [TAct.acquire Lk.devLk, TAct.release Lk.devLk] }
  (s2, dictGet s2.devices uuid)

/-- `get_device_by_name` (manager.py:77-84): first case-insensitive name
match in dictionary order. -/
def get_device_by_name (connected : Bool) (s : MState) (name : String) :
    MState × Option Handle :=
  let s1 := ensure_started connected s
  let s2 := { s1 with trace := s1.trace ++ [TAct.acquire Lk.devLk, TAct.release Lk.devLk] }
  (s2, (s2.devices.find? (fun p => p.2.name.toLower == name.toLower)).map (fun p => p.2))

/-- `get_supported_devices` (manager.py:86-88): all values (this query
takes no lock in the code). -/
def get_supported_devices (connected : Bool) (s : MState) : MState × List Handle :=
  let s1 := ensure_started connected s
  (s1, s1.devices.map (fun p => p.2))

/-- `get_devices_by_kind` (manager.py:90-97): `isinstance` filtering,
embedded as a predicate on handles. -/
def get_devices_by_kind (connected : Bool) (s : MState) (clazz : Handle → Bool) :
    MState × List Handle :=
  let s1 := ensure_started connected s
  let s2 := { s1 with trace := s1.trace ++ [TAct.acquire Lk.devLk, TAct.release Lk.devLk] }
  (s2, (s2.devices.filter (fun p => clazz p.2)).map (fun p => p.2))

/-- `get_devices_by_type` (manager.py:99-106): case-insensitive type-name
filter. -/
def get_devices_by_type (connected : Bool) (s : MState) (type_name : String) :
    MState × List Handle :=
  let s1 := ensure_started connected s
  let s2 := { s1 with trace := s1.trace ++ [TAct.acquire Lk.devLk, TAct.release Lk.devLk] }
  (s2, (s2.devices.filter (fun p => p.2.typeTag.toLower == type_name.toLower)).map (fun p => p.2))

namespace Bus

/-- What a registered callback does when invoked: nothing, raise an error,
or call back into the manager to register or unregister a callback while
the fan-out is in flight. -/
inductive CbAction
  | pure
  | raises
  | register (j : Nat)
  | unregister (j : Nat)
deriving DecidableEq

/-- The event-bus state: the live `_event_callbacks` list (callbacks named
by numbers), the sequence of callback invocations performed, and the count
of fan-out errors logged by the blanket `except:` handler. -/
structure BusState where
  cbs : List Nat
  invoked : List Nat
  errorsLogged : Nat
deriving DecidableEq

/-- `register_event_handler` (manager.py:54-59): append unless already
registered. -/
def register_event_handler (s : BusState) (c : Nat) : BusState :=
  if c ∈ s.cbs then s else { s with cbs := s.cbs ++ [c] }

/-- `unregister_event_handler` (manager.py:61-66): remove the first
occurrence unless absent. -/
def unregister_event_handler (s : BusState) (c : Nat) : BusState :=
  if c ∉ s.cbs then s else { s with cbs := s.cbs.erase c }

/-- Invoking callback `c` with the event: the invocation is recorded, then
the callback's effect runs; the returned flag tells whether it raised. -/
def invokeCb (env : Nat → CbAction) (s : BusState) (c : Nat) : BusState × Bool :=
  let s1 := { s with invoked := s.invoked ++ [c] }
  match env c with
  | CbAction.pure => (s1, false)
  | CbAction.raises => (s1, true)
  | CbAction.register j => (register_event_handler s1 j, false)
  | CbAction.unregister j => (unregister_event_handler s1 j, false)

/-- The `for c in self._event_callbacks` loop of `_fire_event`
(manager.py:202-206): a Python list iterator keeps a position index and
tests it against the current length of the live list at each step, so the
list is read as it stands when each position is reached; an error raised by
a callback is caught and logged and the loop continues.  A callback that
keeps growing the list makes the Python loop diverge, so the embedding is
indexed by fuel and returns `none` on exhaustion. -/
def fireLoop (env : Nat → CbAction) : Nat → BusState → Nat → Option BusState
  | 0, s, i =>
    match s.cbs[i]? with
    | none => some s
    | some _ => none
  | f + 1, s, i =>
    match s.cbs[i]? with
    | none => some s
    | some c =>
      let r := invokeCb env s c
      let s2 := if r.2 then { r.1 with errorsLogged := r.1.errorsLogged + 1 } else r.1
      fireLoop env f s2 (i + 1)

/-- `_fire_event` (manager.py:201-206): iterate the live callback list from
position 0, without taking any lock and without copying the list. -/
def fire_event (env : Nat → CbAction) (fuel : Nat) (s : BusState) : Option BusState :=
  fireLoop env fuel s 0

/-- Number of raising callbacks in a list, under the given behaviours. -/
def raisesCount (env : Nat → CbAction) (l : List Nat) : Nat :=
  l.countP (fun c => decide (env c = CbAction.raises))

end Bus

/-- A hub descriptor with the given uuid, as listed by the HTTP API. -/
def hubDescU (u : String) : Descriptor :=
  { deviceType := some "hub", uuid := some u, subDeviceType := none,
    subDeviceId := none, onlineStatus := 1, devName := "Hub " ++ u }

/-- A sub-device descriptor with the given local identifier, as listed by
`list_hub_subdevices`. -/
def subDescU (i : String) : Descriptor :=
  { deviceType := none, uuid := none, subDeviceType := some "mts100",
    subDeviceId := some i, onlineStatus := 1, devName := "Sub " ++ i }

/-- A discovery collaborator exposing one hub `h` with one sub-device `s`. -/
def coHS : Collaborators :=
  { list_devices := [hubDescU "h"],
    list_hub_subdevices := fun _ => [subDescU "s"],
    isHubType := fun t => t == "hub" }

/-- The state after one discovery pass on `coHS` from the empty state. -/
def s1C : Option MState := (discover_devices coHS false mstate0).toOption

/-- The state after a second, identical discovery pass. -/
def s2C : Option MState := s1C.bind (fun s => (discover_devices coHS false s).toOption)

/-- Lock-discipline checker over a trace, carrying the hold counts of the
two locks.  When `allow` is false it checks the spec's discipline: no lock
held at any external-collaborator call or callback invocation.  When
`allow` is true it additionally tolerates `device.register_event_callback`
calls under the event-callbacks lock (the discipline the code actually
follows). -/
def disciplineOk (allow : Bool) : Nat → Nat → List TAct → Bool
  | _, _, [] => true
  | d, e, TAct.acquire Lk.devLk :: r => disciplineOk allow (d + 1) e r
  | d, e, TAct.acquire Lk.evtLk :: r => disciplineOk allow d (e + 1) r
  | d, e, TAct.release Lk.devLk :: r => disciplineOk allow (d - 1) e r
  | d, e, TAct.release Lk.evtLk :: r => disciplineOk allow d (e - 1) r
  | d, e, TAct.extCall tag :: r =>
      (d == 0 && (e == 0 || (allow && tag == "device.register_event_callback")))
        && disciplineOk allow d e r
  | d, e, TAct.cbInvoke :: r => (d == 0 && e == 0) && disciplineOk allow d e r

/-- Hold count of lock `l` after a trace, starting from `d`. -/
def heldAfter (l : Lk) : Nat → List TAct → Nat
  | d, [] => d
  | d, TAct.acquire l2 :: r => heldAfter l (if l2 == l then d + 1 else d) r
  | d, TAct.release l2 :: r => heldAfter l (if l2 == l then d - 1 else d) r
  | d, _ :: r => heldAfter l d r

/-- A trace that follows the code's lock discipline and ends with both
locks free. -/
def balancedOk (tr : List TAct) : Prop :=
  disciplineOk true 0 0 tr = true ∧ heldAfter Lk.devLk 0 tr = 0 ∧ heldAfter Lk.evtLk 0 tr = 0

/-- C1.  The claim fails on the code: `_handle_device_discovered` checks
membership of the bare sub-device id `d_id` but stores under the composite
`device_id` (manager.py:186 vs 188), so a second identical discovery pass
re-inserts every hub sub-device and re-fires its lifecycle event.  On a
collaborator exposing one hub with one sub-device, the first pass fires 2
events and the second pass fires a third, while the spec (and the code's
own comment at lines 182-183) promise no further events. -/
theorem C1_second_pass_refires_subdevice_event :
    (s1C.map (fun s => (s.firedEvents.length, s.devices.length))) = some (2, 2) ∧
    (s2C.map (fun s => (s.firedEvents.length, s.devices.length))) = some (3, 2) := by
  constructor
  · rfl
  · rfl

/-- C2.  The claim fails on the code for sub-device identities: the second
discovery pass overwrites the stored sub-device handle (identity `h:s`)
with a freshly built one — the handle allocated with id 1 on the first pass
is replaced by the handle allocated with id 3 — instead of discarding the
new handle and keeping the stored mapping unchanged. -/
theorem C2_subdevice_handle_replaced_on_rediscovery :
    (s1C.bind (fun s => (dictGet s.devices "h:s").map Handle.hid)) = some 1 ∧
    (s2C.bind (fun s => (dictGet s.devices "h:s").map Handle.hid)) = some 3 ∧
    (s1C.map (fun s => s.devices.length)) = some 2 ∧
    (s2C.map (fun s => s.devices.length)) = some 2 := by
  exact ⟨rfl, rfl, rfl, rfl⟩

/-- C3 counterexample.  The sub-device query is not gated on newness: on
the second pass over an unchanged descriptor list the hub `h` is already
present (its stored handle, allocation id 0, is untouched), yet
`list_hub_subdevices h` is queried again — the call appears twice in the
log — and the sub-device handle rebuilt in that pass has the discarded
duplicate hub handle (allocation id 2) as parent, not the stored hub
(allocation id 0). -/
theorem C3_subdevice_query_despite_known_hub :
    (s2C.map (fun s => s.httpCalls.count (HttpCall.listHubSubdevices "h"))) = some 2 ∧
    (s1C.bind (fun s => (dictGet s.devices "h").map Handle.hid)) = some 0 ∧
    (s2C.bind (fun s => (dictGet s.devices "h").map Handle.hid)) = some 0 ∧
    (s1C.bind (fun s => (dictGet s.devices "h:s").map Handle.parentHid)) = some (some 0) ∧
    (s2C.bind (fun s => (dictGet s.devices "h:s").map Handle.parentHid)) = some (some 2) := by
  refine ⟨rfl, rfl, rfl, rfl, rfl⟩

/-- Two hubs with distinct uuids `A` and `B`, each reporting one sub-device
whose local identifier collides with hub uuid `A`. -/
def co5bad : Collaborators :=
  { list_devices := [hubDescU "A", hubDescU "B"],
    list_hub_subdevices := fun _ => [subDescU "A"],
    isHubType := fun t => t == "hub" }

/-- C5 counterexample.  Because the presence check uses the bare sub-device
identifier (manager.py:186), a local identifier equal to an existing
directory key is treated as already present: with hubs `A` and `B` each
reporting a sub-device with local identifier `A`, neither composite entry
`A:A` nor `B:A` is ever inserted — the directory ends with only the two
hub entries, not the two sub-device entries the claim promises. -/
theorem C5_colliding_subid_with_hub_uuid_drops_entries :
    ((discover_devices co5bad false mstate0).toOption.map
      (fun s => (dictGet s.devices "A:A", dictGet s.devices "B:A", s.devices.length)))
      = some (none, none, 2) := by
  rfl

/-- A manager state with one registered event callback. -/
def sC9 : MState := { mstate0 with eventCallbacks := [7] }

/-- C9 counterexample.  Reconciling a new device with one registered
callback produces a trace in which `device.register_event_callback` — a
call into the external device handle — is performed while the
event-callbacks lock is held: the trace fails the spec's discipline (no
lock held across any external call) and passes only the weakened
discipline that tolerates exactly that call under the event lock. -/
theorem C9_register_callbacks_under_event_lock :
    ((handle_device_discovered coHS sC9 (hubDescU "h") none).toOption.map
      (fun p => (disciplineOk false 0 0 p.1.trace, disciplineOk true 0 0 p.1.trace,
                 p.1.trace.contains (TAct.extCall "device.register_event_callback"))))
      = some (false, true, true) := by
  rfl

/-- Helper: when every registered callback merely observes the event or
raises (none mutates the callback list), the live-list iteration of
`_fire_event` from position `i` invokes exactly the remaining callbacks in
order, logs one error per raiser, and terminates normally. -/
theorem Bus.fireLoop_nonmutating (env : Nat → Bus.CbAction) :
    ∀ (fuel i : Nat) (s : Bus.BusState),
      (∀ c ∈ s.cbs, env c = Bus.CbAction.pure ∨ env c = Bus.CbAction.raises) →
      s.cbs.length ≤ i + fuel →
      Bus.fireLoop env fuel s i =
        some { cbs := s.cbs, invoked := s.invoked ++ s.cbs.drop i,
               errorsLogged := s.errorsLogged + Bus.raisesCount env (s.cbs.drop i) } := by
  intro fuel
  induction fuel with
  | zero =>
    intro i s hnm hlen
    have hge : s.cbs.length ≤ i := by omega
    have hnone : s.cbs[i]? = none := List.getElem?_eq_none hge
    have hdrop : s.cbs.drop i = [] := List.drop_eq_nil_of_le hge
    simp [Bus.fireLoop, hnone, hdrop, Bus.raisesCount]
  | succ f ih =>
    intro i s hnm hlen
    cases h : s.cbs[i]? with
    | none =>
      have hge : s.cbs.length ≤ i := by
        rcases Nat.lt_or_ge i s.cbs.length with h1 | h1
        · rw [List.getElem?_eq_getElem h1] at h; exact absurd h (by simp)
        · exact h1
      have hdrop : s.cbs.drop i = [] := List.drop_eq_nil_of_le hge
      simp [Bus.fireLoop, h, hdrop, Bus.raisesCount]
    | some c =>
      have hlt : i < s.cbs.length := by
        rcases Nat.lt_or_ge i s.cbs.length with h1 | h1
        · exact h1
        · rw [List.getElem?_eq_none h1] at h; exact absurd h (by simp)
      have hget : s.cbs[i] = c := by
        rw [List.getElem?_eq_getElem hlt] at h
        exact Option.some.inj h
      have hc : c ∈ s.cbs := hget ▸ List.getElem_mem hlt
      have hdrop : s.cbs.drop i = c :: s.cbs.drop (i + 1) := by
        rw [← List.getElem_cons_drop s.cbs i hlt, hget]
      rcases hnm c hc with hp | hp
      · have hstep : Bus.fireLoop env (f + 1) s i
            = Bus.fireLoop env f { s with invoked := s.invoked ++ [c] } (i + 1) := by
          simp [Bus.fireLoop, h, Bus.invokeCb, hp]
        rw [hstep, ih (i + 1) _ (by simpa using hnm) (by simp; omega)]
        simp [hdrop, Bus.raisesCount, List.countP_cons, hp]
      · have hstep : Bus.fireLoop env (f + 1) s i
            = Bus.fireLoop env f
                { s with invoked := s.invoked ++ [c], errorsLogged := s.errorsLogged + 1 }
                (i + 1) := by
          simp [Bus.fireLoop, h, Bus.invokeCb, hp]
        rw [hstep, ih (i + 1) _ (by simpa using hnm) (by simp; omega)]
        simp [hdrop, Bus.raisesCount, List.countP_cons, hp]
        omega

/-- A callback environment where callback 1 registers callback 2 during the
fan-out, and every other callback does nothing. -/
def envC4 : Nat → Bus.CbAction :=
  fun n => if n == 1 then Bus.CbAction.register 2 else Bus.CbAction.pure

/-- A bus with only callback 1 registered. -/
def busC4 : Bus.BusState := { cbs := [1], invoked := [], errorsLogged := 0 }

/-- C4 counterexample.  `_fire_event` iterates the live `_event_callbacks`
list with no snapshot and no lock: starting a fan-out with only callback 1
registered, callback 1 registers callback 2 mid-flight and the same
fan-out then invokes callback 2 as well — so the set of callbacks invoked
is not the set registered at the moment `fire` was called, and an
in-flight registration does change the in-flight fan-out. -/
theorem C4_fanout_sees_midflight_registration :
    ((Bus.fire_event envC4 2 busC4).map Bus.BusState.invoked) = some [1, 2] ∧
    busC4.cbs = [1] ∧ busC4.cbs.contains 2 = false := by
  exact ⟨rfl, rfl, rfl⟩

/-- C4 amended.  For callbacks that do not mutate the callback list (they
only observe the event or raise), `fire` does behave like a snapshot:
exactly the callbacks registered at call time are invoked, each exactly
once, in registration order, and the list is left unchanged. -/
theorem C4_amended_snapshot_for_nonmutating_callbacks (env : Nat → Bus.CbAction)
    (s : Bus.BusState) (fuel : Nat)
    (hnm : ∀ c ∈ s.cbs, env c = Bus.CbAction.pure ∨ env c = Bus.CbAction.raises)
    (hfuel : s.cbs.length ≤ fuel) :
    ((Bus.fire_event env fuel s).map Bus.BusState.invoked) = some (s.invoked ++ s.cbs) ∧
    ((Bus.fire_event env fuel s).map Bus.BusState.cbs) = some s.cbs := by
  have h := Bus.fireLoop_nonmutating env fuel 0 s hnm (by omega)
  rw [Bus.fire_event, h]
  simp

/-- C4 amended witness: two observing callbacks, invoked in order. -/
theorem C4_amended_snapshot_for_nonmutating_callbacks_witness :
    ((Bus.fire_event (fun _ => Bus.CbAction.pure) 3
        { cbs := [4, 5], invoked := [], errorsLogged := 0 }).map Bus.BusState.invoked)
      = some [4, 5] ∧
    ((Bus.fire_event (fun _ => Bus.CbAction.pure) 3
        { cbs := [4, 5], invoked := [], errorsLogged := 0 }).map Bus.BusState.cbs)
      = some [4, 5] :=
  C4_amended_snapshot_for_nonmutating_callbacks (fun _ => Bus.CbAction.pure)
    { cbs := [4, 5], invoked := [], errorsLogged := 0 } 3 (by decide) (by decide)

/-- C6.  Callback failure is isolated: for any registered callback list in
which each callback observes or raises, `fire` catches every raised error
(logging one error per raiser), still invokes every callback — including
those registered after a raiser — exactly once in order, and returns
normally to its caller. -/
theorem C6_callback_failure_isolated (env : Nat → Bus.CbAction) (s : Bus.BusState)
    (fuel : Nat)
    (hnm : ∀ c ∈ s.cbs, env c = Bus.CbAction.pure ∨ env c = Bus.CbAction.raises)
    (hfuel : s.cbs.length ≤ fuel) :
    Bus.fire_event env fuel s =
      some { cbs := s.cbs, invoked := s.invoked ++ s.cbs,
             errorsLogged := s.errorsLogged + Bus.raisesCount env s.cbs } := by
  have h := Bus.fireLoop_nonmutating env fuel 0 s hnm (by omega)
  rw [Bus.fire_event, h]
  simp

/-- A callback environment where callback 1 raises and callback 2 observes. -/
def envC6 : Nat → Bus.CbAction :=
  fun n => if n == 1 then Bus.CbAction.raises else Bus.CbAction.pure

/-- C6 witness: the first of two registered callbacks raises; the second is
still invoked exactly once, one error is logged, and `fire` returns. -/
theorem C6_callback_failure_isolated_witness :
    Bus.fire_event envC6 2 { cbs := [1, 2], invoked := [], errorsLogged := 0 } =
      some { cbs := [1, 2], invoked := [1, 2], errorsLogged := 1 } := by
  have h := C6_callback_failure_isolated envC6
    { cbs := [1, 2], invoked := [], errorsLogged := 0 } 2 (by decide) (by decide)
  simpa using h

/-- The empty dictionary contains nothing. -/
theorem dictContains_nil (q : String) : dictContains [] q = false := rfl

/-- Setting a binding leaves exactly the old keys plus `k`. -/
theorem dictContains_dictSet (m : List (String × Handle)) (k : String) (v : Handle)
    (q : String) : dictContains (dictSet m k v) q = (q == k || dictContains m q) := by
  induction m with
  | nil =>
    by_cases hqk : q = k <;> simp [dictSet, dictContains, hqk]
    exact fun h => hqk h.symm
  | cons p t ih =>
    by_cases hp : p.1 = k
    · rw [dictSet, if_pos (by simpa using hp)]
      by_cases hqk : q = k <;>
        simp [dictContains, hp, hqk]
    · rw [dictSet, if_neg (by simpa using hp)]
      simp only [dictContains, List.any_cons] at ih ⊢
      rw [ih]
      cases h1 : (p.1 == q) <;> cases h2 : (q == k) <;> simp

/-- After `dict[k] = v`, looking up `k` yields `v`. -/
theorem dictGet_dictSet_self (m : List (String × Handle)) (k : String) (v : Handle) :
    dictGet (dictSet m k v) k = some v := by
  induction m with
  | nil => simp [dictSet, dictGet, List.find?]
  | cons p t ih =>
    by_cases hp : p.1 = k
    · rw [dictSet, if_pos (by simpa using hp)]
      simp [dictGet, List.find?]
    · rw [dictSet, if_neg (by simpa using hp)]
      have hp2 : (p.1 == k) = false := by simpa using hp
      simpa [dictGet, List.find?, hp2] using ih

/-- After `dict[k] = v`, looking up any other key is unchanged. -/
theorem dictGet_dictSet_ne (m : List (String × Handle)) (k : String) (v : Handle)
    (q : String) (hq : q ≠ k) : dictGet (dictSet m k v) q = dictGet m q := by
  have hkq : (k == q) = false := by simpa using Ne.symm hq
  induction m with
  | nil => simp [dictSet, dictGet, List.find?, hkq]
  | cons p t ih =>
    by_cases hp : p.1 = k
    · rw [dictSet, if_pos (by simpa using hp)]
      have hpq : (p.1 == q) = false := by rw [hp]; exact hkq
      simp [dictGet, List.find?, hkq, hpq]
    · rw [dictSet, if_neg (by simpa using hp)]
      simp only [dictGet, List.find?] at ih ⊢
      cases hpq : (p.1 == q) with
      | true => rfl
      | false => exact ih

/-- Length of a composite sub-device key. -/
theorem colon_segment_length (a b : String) :
    (a ++ ":" ++ b).length = a.length + 1 + b.length := by
  rw [String.length_append, String.length_append]
  rfl

/-- A string no longer than the two segments combined cannot equal the
composite key (the composite is one character longer). -/
theorem ne_colon_append_of_le (a b c : String) (h : c.length ≤ a.length + b.length) :
    c ≠ a ++ ":" ++ b := by
  intro he
  have hl := congrArg String.length he
  rw [colon_segment_length] at hl
  omega

/-- Composite keys with the same sub-device identifier and distinct hub
uuids are distinct. -/
theorem colon_append_ne (a b c : String) (h : a ≠ c) :
    a ++ ":" ++ b ≠ c ++ ":" ++ b := by
  intro he
  apply h
  have hd := congrArg String.data he
  rw [String.data_append, String.data_append, String.data_append, String.data_append] at hd
  have hd2 : a.data ++ (":" : String).data = c.data ++ (":" : String).data :=
    List.append_cancel_right hd
  have hd3 : a.data = c.data := List.append_cancel_right hd2
  cases a; cases c
  exact congrArg String.mk hd3

/-- Two hubs with uuids `h1` and `h2`, each reporting one sub-device with
the same local identifier `sid`. -/
def co5 (h1 h2 sid : String) : Collaborators :=
  { list_devices := [hubDescU h1, hubDescU h2],
    list_hub_subdevices := fun _ => [subDescU sid],
    isHubType := fun t => t == "hub" }

/-- C5 amended.  Two hubs with distinct uuids each reporting a sub-device
with the same local identifier produce two distinct composite Directory
entries — provided the shared local identifier differs from both hub
uuids (the counterexample above shows the claim fails without that
proviso, because the presence check uses the bare local identifier). -/
theorem C5_amended_distinct_composite_entries (h1 h2 sid : String)
    (hne : h1 ≠ h2) (hs1 : sid ≠ h1) (hs2 : sid ≠ h2) :
    ∃ s, discover_devices (co5 h1 h2 sid) false mstate0 = Except.ok s ∧
      (dictGet s.devices (h1 ++ ":" ++ sid)).isSome = true ∧
      (dictGet s.devices (h2 ++ ":" ++ sid)).isSome = true ∧
      h1 ++ ":" ++ sid ≠ h2 ++ ":" ++ sid := by
  have g1 : (sid == h1) = false := by simpa using hs1
  have g2 : (sid == h2) = false := by simpa using hs2
  have g3 : (sid == h1 ++ ":" ++ sid) = false := by
    simpa using ne_colon_append_of_le h1 sid sid (by omega)
  have g4 : (h2 == h1) = false := by simpa using Ne.symm hne
  have gkk : h1 ++ ":" ++ sid ≠ h2 ++ ":" ++ sid := colon_append_ne h1 sid h2 hne
  cases hb : (h2 == h1 ++ ":" ++ sid) with
  | true =>
    simp [discover_devices, co5, discoverLoop, handle_device_discovered, hubDescU,
      subDescU, subdevicesLoop, insertAndAnnounce, build_wrapper, build_subdevice_wrapper,
      fire_event, mstate0, dictContains_dictSet, dictContains_nil, g1, g2, g3, g4, hb,
      dictGet_dictSet_self, dictGet_dictSet_ne, gkk]
  | false =>
    have g5 : h1 ++ ":" ++ sid ≠ h2 := by
      intro he
      rw [he] at hb
      simp at hb
    simp [discover_devices, co5, discoverLoop, handle_device_discovered, hubDescU,
      subDescU, subdevicesLoop, insertAndAnnounce, build_wrapper, build_subdevice_wrapper,
      fire_event, mstate0, dictContains_dictSet, dictContains_nil, g1, g2, g3, g4, hb,
      dictGet_dictSet_self, dictGet_dictSet_ne, gkk, g5]

/-- C5 amended witness: hubs `A` and `B`, shared sub-device identifier `C`. -/
theorem C5_amended_distinct_composite_entries_witness :
    ∃ s, discover_devices (co5 "A" "B" "C") false mstate0 = Except.ok s ∧
      (dictGet s.devices ("A" ++ ":" ++ "C")).isSome = true ∧
      (dictGet s.devices ("B" ++ ":" ++ "C")).isSome = true ∧
      "A" ++ ":" ++ "C" ≠ "B" ++ ":" ++ "C" :=
  C5_amended_distinct_composite_entries "A" "B" "C" (by decide) (by decide) (by decide)

/-- The per-descriptor reconciliation never touches the HTTP-call log, the
push-delivery log, or the registered-callback list. -/
theorem insertAndAnnounce_frame (s : MState) (a b : String) (v : Handle) :
    (insertAndAnnounce s a b v).1.httpCalls = s.httpCalls ∧
    (insertAndAnnounce s a b v).1.pushDeliveries = s.pushDeliveries ∧
    (insertAndAnnounce s a b v).1.eventCallbacks = s.eventCallbacks := by
  unfold insertAndAnnounce fire_event
  by_cases hc : dictContains s.devices a <;> simp [hc]

/-- `_handle_device_discovered` never touches the HTTP-call log, the
push-delivery log, or the registered-callback list. -/
theorem handler_frame (co : Collaborators) (s : MState) (d : Descriptor)
    (ph : Option Handle) (s2 : MState) (r : Option Handle)
    (h : handle_device_discovered co s d ph = Except.ok (s2, r)) :
    s2.httpCalls = s.httpCalls ∧ s2.pushDeliveries = s.pushDeliveries ∧
    s2.eventCallbacks = s.eventCallbacks := by
  unfold handle_device_discovered at h
  split at h
  · have h2 : _ = s2 := congrArg Prod.fst (Except.ok.inj h)
    rw [← h2]
    simpa using insertAndAnnounce_frame _ _ _ _
  · split at h
    · split at h
      · exact absurd h (by simp)
      · have h2 : _ = s2 := congrArg Prod.fst (Except.ok.inj h)
        rw [← h2]
        simpa using insertAndAnnounce_frame _ _ _ _
    · have h2 : _ = s2 := congrArg Prod.fst (Except.ok.inj h)
      rw [← h2]
      simp

/-- The reconciliation step always hands back the handle it was given. -/
theorem insertAndAnnounce_snd (s : MState) (a b : String) (v : Handle) :
    (insertAndAnnounce s a b v).2 = some v := by
  unfold insertAndAnnounce
  by_cases hc : dictContains s.devices a <;> simp [hc]

/-- The hub sub-device query a processed descriptor gives rise to, as a
function of the descriptor alone: one `list_hub_subdevices` call on the
descriptor's uuid exactly when the descriptor is full-shaped and the
factory classifies its type tag as a hub type. -/
def hubCallsOf (co : Collaborators) (d : Descriptor) : List HttpCall :=
  match d.deviceType, d.uuid with
  | some t, some u => if co.isHubType t then [HttpCall.listHubSubdevices u] else []
  | _, _ => []

/-- The hub sub-device query the discovery loop performs for a returned
handle (lines 153-154): one query on the handle's uuid when it is a hub. -/
def hubCallsOfHandle : Option Handle → List HttpCall
  | some dv => if dv.isHub then [HttpCall.listHubSubdevices dv.uuid] else []
  | none => []

/-- The handle returned by `_handle_device_discovered` for a top-level
descriptor determines that descriptor's hub sub-device query: a hub handle
means one query on its uuid, a non-hub or missing handle means none. -/
theorem handler_hubCalls (co : Collaborators) (s : MState) (d : Descriptor)
    (s2 : MState) (r : Option Handle)
    (h : handle_device_discovered co s d none = Except.ok (s2, r)) :
    hubCallsOfHandle r = hubCallsOf co d := by
  unfold handle_device_discovered at h
  unfold hubCallsOf
  cases hdt : d.deviceType with
  | some d_type =>
    cases hdu : d.uuid with
    | some d_id =>
      simp only [hdt, hdu] at h ⊢
      have h3 : _ = r := congrArg Prod.snd (Except.ok.inj h)
      subst h3
      simp [hubCallsOfHandle, insertAndAnnounce_snd, build_wrapper]
    | none =>
      simp only [hdt, hdu] at h ⊢
      cases hst : d.subDeviceType with
      | some st =>
        cases hsi : d.subDeviceId with
        | some si =>
          simp only [hst, hsi] at h
          exact absurd h (by simp)
        | none =>
          simp only [hst, hsi] at h
          have h3 : _ = r := congrArg Prod.snd (Except.ok.inj h)
          subst h3
          rfl
      | none =>
        simp only [hst] at h
        have h3 : _ = r := congrArg Prod.snd (Except.ok.inj h)
        subst h3
        rfl
  | none =>
    simp only [hdt] at h ⊢
    cases hst : d.subDeviceType with
    | some st =>
      cases hsi : d.subDeviceId with
      | some si =>
        simp only [hst, hsi] at h
        exact absurd h (by simp)
      | none =>
        simp only [hst, hsi] at h
        have h3 : _ = r := congrArg Prod.snd (Except.ok.inj h)
        subst h3
        rfl
    | none =>
      simp only [hst] at h
      have h3 : _ = r := congrArg Prod.snd (Except.ok.inj h)
      subst h3
      rfl

/-- The inner sub-device loop issues no HTTP calls and never touches the
push-delivery log. -/
theorem subdevicesLoop_frame (co : Collaborators) (parent : Handle) :
    ∀ (l : List Descriptor) (s s2 : MState),
      subdevicesLoop co parent s l = Except.ok s2 →
      s2.httpCalls = s.httpCalls ∧ s2.pushDeliveries = s.pushDeliveries := by
  intro l
  induction l with
  | nil =>
    intro s s2 h
    rw [subdevicesLoop] at h
    have h2 := Except.ok.inj h
    rw [← h2]
    exact ⟨rfl, rfl⟩
  | cons sd rest ih =>
    intro s s2 h
    rw [subdevicesLoop] at h
    cases hh : handle_device_discovered co s sd (some parent) with
    | error e => rw [hh] at h; cases h
    | ok p =>
      rw [hh] at h
      have hf := handler_frame co s sd (some parent) p.1 p.2 (by rw [hh])
      have hr := ih p.1 s2 h
      exact ⟨hr.1.trans hf.1, hr.2.trans hf.2.1⟩

/-- The discovery loop's HTTP calls are exactly one `list_hub_subdevices`
query per processed hub descriptor, independent of whether each hub was
already in the directory; the push-delivery log is untouched. -/
theorem discoverLoop_calls (co : Collaborators) (online_only : Bool) :
    ∀ (l : List Descriptor) (s s2 : MState),
      discoverLoop co online_only s l = Except.ok s2 →
      s2.httpCalls = s.httpCalls ++
          (l.filter (fun d => !(online_only && d.onlineStatus != 1))).flatMap (hubCallsOf co) ∧
      s2.pushDeliveries = s.pushDeliveries := by
  intro l
  induction l with
  | nil =>
    intro s s2 h
    rw [discoverLoop] at h
    have h2 := Except.ok.inj h
    rw [← h2]
    simp
  | cons d rest ih =>
    intro s s2 h
    rw [discoverLoop] at h
    by_cases hskip : (online_only && d.onlineStatus != 1) = true
    · rw [if_pos hskip] at h
      have hr := ih s s2 h
      have hcond : (!(online_only && d.onlineStatus != 1)) = false := by rw [hskip]; rfl
      rw [List.filter_cons, hcond, if_neg (by simp)]
      exact hr
    · have hskip2 : (online_only && d.onlineStatus != 1) = false := Bool.eq_false_iff.mpr hskip
      rw [if_neg hskip] at h
      have hcond : (!(online_only && d.onlineStatus != 1)) = true := by rw [hskip2]; rfl
      rw [List.filter_cons, hcond, if_pos rfl, List.flatMap_cons]
      cases hh : handle_device_discovered co s d none with
      | error e =>
        simp only [hh] at h
        exact Except.noConfusion h
      | ok p =>
        obtain ⟨s1, r⟩ := p
        have hf := handler_frame co s d none s1 r hh
        have hcalls := handler_hubCalls co s d s1 r hh
        cases r with
        | none =>
          simp only [hh] at h
          have hr := ih s1 s2 h
          have hc0 : hubCallsOf co d = [] := by rw [← hcalls]; rfl
          rw [hc0, List.nil_append]
          exact ⟨by rw [hr.1, hf.1], by rw [hr.2, hf.2.1]⟩
        | some dv =>
          simp only [hh] at h
          by_cases hhub : dv.isHub = true
          · rw [if_pos hhub] at h
            cases hsl : subdevicesLoop co dv
                { s1 with httpCalls := s1.httpCalls ++ [HttpCall.listHubSubdevices dv.uuid],
                          trace := s1.trace ++ [TAct.extCall "http.list_hub_subdevices"] }
                (co.list_hub_subdevices dv.uuid) with
            | error e =>
              simp only [hsl] at h
              exact Except.noConfusion h
            | ok s3 =>
              simp only [hsl] at h
              have hsf := subdevicesLoop_frame co dv _ _ s3 hsl
              have hr := ih s3 s2 h
              have hc1 : hubCallsOf co d = [HttpCall.listHubSubdevices dv.uuid] := by
                rw [← hcalls]
                simp [hubCallsOfHandle, hhub]
              rw [hc1]
              constructor
              · rw [hr.1, hsf.1]
                simp only [hf.1, List.append_assoc]
              · rw [hr.2, hsf.2, hf.2.1]
          · have hhub2 : dv.isHub = false := Bool.eq_false_iff.mpr hhub
            rw [if_neg hhub] at h
            have hr := ih s1 s2 h
            have hc0 : hubCallsOf co d = [] := by
              rw [← hcalls]
              simp [hubCallsOfHandle, hhub2]
            rw [hc0, List.nil_append]
            exact ⟨by rw [hr.1, hf.1], by rw [hr.2, hf.2.1]⟩

/-- C3 amended.  The collaborator's sub-device list for a hub is queried on
every discovery pass in which the hub's descriptor is processed (not
skipped by the online filter) and its freshly built handle is a hub —
regardless of whether that handle was newly inserted into the Directory:
the HTTP calls of a pass are exactly one `list_devices` plus one
`list_hub_subdevices` per processed hub-shaped descriptor. -/
theorem C3_amended_hub_query_every_pass (co : Collaborators) (online_only : Bool)
    (s s2 : MState) (h : discover_devices co online_only s = Except.ok s2) :
    s2.httpCalls = s.httpCalls ++ [HttpCall.listDevices] ++
      (co.list_devices.filter (fun d => !(online_only && d.onlineStatus != 1))).flatMap
        (hubCallsOf co) := by
  unfold discover_devices at h
  have hr := (discoverLoop_calls co online_only co.list_devices _ s2 h).1
  simpa [List.append_assoc] using hr

/-- C3 amended witness: one pass over a single hub descriptor issues
exactly `list_devices` followed by `list_hub_subdevices h`. -/
theorem C3_amended_hub_query_every_pass_witness :
    ((discover_devices coHS false mstate0).toOption.getD mstate0).httpCalls =
      mstate0.httpCalls ++ [HttpCall.listDevices] ++
      (coHS.list_devices.filter (fun d => !(false && d.onlineStatus != 1))).flatMap
        (hubCallsOf coHS) :=
  C3_amended_hub_query_every_pass coHS false mstate0 _ (by rfl)

/-- A top-level descriptor that will not crash the handler: either
full-shaped, or not carrying the sub-device shape (sub-device-shaped
descriptors require a parent hub, see C10). -/
def noBareSubdevice (d : Descriptor) : Prop :=
  (d.deviceType.isSome ∧ d.uuid.isSome) ∨
    ¬ (d.subDeviceType.isSome ∧ d.subDeviceId.isSome)

instance (d : Descriptor) : Decidable (noBareSubdevice d) := by
  unfold noBareSubdevice
  infer_instance

/-- With a parent hub supplied, the handler never raises. -/
theorem handler_ok_of_parent_some (co : Collaborators) (s : MState) (d : Descriptor)
    (ph : Handle) : ∃ p, handle_device_discovered co s d (some ph) = Except.ok p := by
  unfold handle_device_discovered
  rcases hdt : d.deviceType with _ | t <;> rcases hdu : d.uuid with _ | u <;>
    rcases hst : d.subDeviceType with _ | st <;> rcases hsi : d.subDeviceId with _ | si <;>
      simp

/-- Without a parent hub, the handler succeeds on every descriptor that is
not bare-sub-device-shaped. -/
theorem handler_ok_of_shape (co : Collaborators) (s : MState) (d : Descriptor)
    (hd : noBareSubdevice d) :
    ∃ p, handle_device_discovered co s d none = Except.ok p := by
  unfold handle_device_discovered
  unfold noBareSubdevice at hd
  rcases hdt : d.deviceType with _ | t <;> rcases hdu : d.uuid with _ | u <;>
    rcases hst : d.subDeviceType with _ | st <;> rcases hsi : d.subDeviceId with _ | si <;>
      simp_all

/-- The sub-device loop always succeeds. -/
theorem subdevicesLoop_ok (co : Collaborators) (parent : Handle) :
    ∀ (l : List Descriptor) (s : MState),
      ∃ s2, subdevicesLoop co parent s l = Except.ok s2 := by
  intro l
  induction l with
  | nil => intro s; exact ⟨s, rfl⟩
  | cons sd rest ih =>
    intro s
    obtain ⟨p, hp⟩ := handler_ok_of_parent_some co s sd parent
    obtain ⟨s2, hs2⟩ := ih p.1
    refine ⟨s2, ?_⟩
    rw [subdevicesLoop]
    simp only [hp]
    exact hs2

/-- The discovery loop succeeds whenever no listed descriptor is
bare-sub-device-shaped. -/
theorem discoverLoop_ok (co : Collaborators) (online_only : Bool) :
    ∀ (l : List Descriptor) (s : MState),
      (∀ d ∈ l, noBareSubdevice d) →
      ∃ s2, discoverLoop co online_only s l = Except.ok s2 := by
  intro l
  induction l with
  | nil => intro s _; exact ⟨s, rfl⟩
  | cons d rest ih =>
    intro s hwf
    have hrest : ∀ x ∈ rest, noBareSubdevice x := fun x hx => hwf x (by simp [hx])
    by_cases hskip : (online_only && d.onlineStatus != 1) = true
    · obtain ⟨s2, hs2⟩ := ih s hrest
      refine ⟨s2, ?_⟩
      rw [discoverLoop, if_pos hskip]
      exact hs2
    · obtain ⟨p, hp⟩ := handler_ok_of_shape co s d (hwf d (by simp))
      obtain ⟨s1, r⟩ := p
      cases r with
      | none =>
        obtain ⟨s2, hs2⟩ := ih s1 hrest
        refine ⟨s2, ?_⟩
        rw [discoverLoop, if_neg hskip]
        simp only [hp]
        exact hs2
      | some dv =>
        by_cases hhub : dv.isHub = true
        · obtain ⟨s3, hs3⟩ := subdevicesLoop_ok co dv (co.list_hub_subdevices dv.uuid)
            { s1 with httpCalls := s1.httpCalls ++ [HttpCall.listHubSubdevices dv.uuid],
                      trace := s1.trace ++ [TAct.extCall "http.list_hub_subdevices"] }
          obtain ⟨s2, hs2⟩ := ih s3 hrest
          refine ⟨s2, ?_⟩
          rw [discoverLoop, if_neg hskip]
          simp only [hp, if_pos hhub, hs3]
          exact hs2
        · obtain ⟨s2, hs2⟩ := ih s1 hrest
          refine ⟨s2, ?_⟩
          rw [discoverLoop, if_neg hskip]
          simp only [hp]
          rw [if_neg hhub]
          exact hs2

/-- One discovery pass succeeds on a well-formed device listing. -/
theorem discover_devices_ok (co : Collaborators) (online_only : Bool) (s : MState)
    (hwf : ∀ d ∈ co.list_devices, noBareSubdevice d) :
    ∃ s2, discover_devices co online_only s = Except.ok s2 := by
  obtain ⟨s2, hs2⟩ := discoverLoop_ok co online_only co.list_devices
    { s with httpCalls := s.httpCalls ++ [HttpCall.listDevices],
             trace := s.trace ++ [TAct.extCall "http.list_devices"] } hwf
  exact ⟨s2, hs2⟩

/-- Hub sub-device queries never add a `list_devices` entry to the log. -/
theorem count_listDevices_hubCalls (co : Collaborators) (l : List Descriptor) :
    (l.flatMap (hubCallsOf co)).count HttpCall.listDevices = 0 := by
  induction l with
  | nil => rfl
  | cons d rest ih =>
    rw [List.flatMap_cons, List.count_append, ih]
    unfold hubCallsOf
    rcases d.deviceType with _ | t <;> rcases d.uuid with _ | u <;> simp
    by_cases h : co.isHubType t = true <;> simp [h, List.count_cons, List.count_nil] <;> rfl

/-- C7.  Notification routing: the target identity is segment 2 of the
origin path.  A known identity gets the message's namespace and payload
delivered to its handle together with the self-origin flag, with no HTTP
traffic and no directory or event change; an unknown identity triggers
exactly one full discovery pass (one more `list_devices` call) with
`online_only = false`, the message is dropped (no delivery recorded), and
no error is raised even if the identity is still absent afterwards. -/
theorem C7_notification_routing (co : Collaborators) (s : MState) (msg : PushMessage)
    (fm : Bool) (u : String)
    (hu : (splitSlash msg.fromField.data).get? 2 = some u.data)
    (hwf : ∀ d ∈ co.list_devices, noBareSubdevice d) :
    (∀ dev, dictGet s.devices u = some dev →
      ∃ s2, dispatch_push_notification co s msg fm = Except.ok s2 ∧
        s2.pushDeliveries = s.pushDeliveries ++ [(dev.hid, msg.nsField, msg.payload, fm)] ∧
        s2.devices = s.devices ∧ s2.httpCalls = s.httpCalls ∧
        s2.firedEvents = s.firedEvents) ∧
    (dictGet s.devices u = none →
      ∃ s2, dispatch_push_notification co s msg fm = Except.ok s2 ∧
        s2.pushDeliveries = s.pushDeliveries ∧
        s2.httpCalls.count HttpCall.listDevices
          = s.httpCalls.count HttpCall.listDevices + 1) := by
  have heta : String.mk u.data = u := rfl
  constructor
  · intro dev hdev
    unfold dispatch_push_notification
    simp only [hu, heta, hdev]
    exact ⟨_, rfl, rfl, rfl, rfl, rfl⟩
  · intro hnone
    obtain ⟨s2, hs2⟩ := discover_devices_ok co false
      { s with trace := s.trace ++ [TAct.acquire Lk.devLk, TAct.release Lk.devLk] } hwf
    have hloop := hs2
    unfold discover_devices at hloop
    have hchar := discoverLoop_calls co false co.list_devices _ s2 hloop
    refine ⟨s2, ?_, ?_, ?_⟩
    · unfold dispatch_push_notification
      simp only [hu, heta, hnone]
      exact hs2
    · rw [hchar.2]
    · rw [hchar.1]
      rw [List.count_append, List.count_append, count_listDevices_hubCalls]
      rfl

/-- A push message whose origin path names the unknown device `h`. -/
def msgC7 : PushMessage :=
  { fromField := "/appliance/h/publish", nsField := "Appliance.Control.Toggle",
    payload := "p" }

/-- C7 witness: routing `msgC7` against an empty directory triggers one
discovery pass, drops the message, and raises nothing. -/
theorem C7_notification_routing_witness :
    ∃ s2, dispatch_push_notification coHS mstate0 msgC7 false = Except.ok s2 ∧
      s2.pushDeliveries = mstate0.pushDeliveries ∧
      s2.httpCalls.count HttpCall.listDevices
        = mstate0.httpCalls.count HttpCall.listDevices + 1 :=
  (C7_notification_routing coHS mstate0 msgC7 false "h" (by decide) (by decide)).2 (by rfl)

/-- C8.  Every query operation invoked while the transport is not in the
SUBSCRIBED state logs exactly one warning, still computes its result from
the current Directory contents — the same result it returns when
subscribed — and leaves the Directory unchanged; none of the five queries
can raise (they are total functions of the state). -/
theorem C8_queries_nonfatal_when_not_subscribed (s : MState)
    (uuid nm type_name : String) (clazz : Handle → Bool) :
    (get_device_by_uuid false s uuid).2 = dictGet s.devices uuid ∧
    (get_device_by_uuid false s uuid).2 = (get_device_by_uuid true s uuid).2 ∧
    (get_device_by_uuid false s uuid).1.devices = s.devices ∧
    (get_device_by_uuid false s uuid).1.warnings = s.warnings + 1 ∧
    (get_device_by_name false s nm).2
      = (s.devices.find? (fun p => p.2.name.toLower == nm.toLower)).map (fun p => p.2) ∧
    (get_device_by_name false s nm).2 = (get_device_by_name true s nm).2 ∧
    (get_device_by_name false s nm).1.devices = s.devices ∧
    (get_device_by_name false s nm).1.warnings = s.warnings + 1 ∧
    (get_supported_devices false s).2 = s.devices.map (fun p => p.2) ∧
    (get_supported_devices false s).2 = (get_supported_devices true s).2 ∧
    (get_supported_devices false s).1.devices = s.devices ∧
    (get_supported_devices false s).1.warnings = s.warnings + 1 ∧
    (get_devices_by_kind false s clazz).2
      = (s.devices.filter (fun p => clazz p.2)).map (fun p => p.2) ∧
    (get_devices_by_kind false s clazz).2 = (get_devices_by_kind true s clazz).2 ∧
    (get_devices_by_kind false s clazz).1.devices = s.devices ∧
    (get_devices_by_kind false s clazz).1.warnings = s.warnings + 1 ∧
    (get_devices_by_type false s type_name).2
      = (s.devices.filter (fun p => p.2.typeTag.toLower == type_name.toLower)).map
          (fun p => p.2) ∧
    (get_devices_by_type false s type_name).2 = (get_devices_by_type true s type_name).2 ∧
    (get_devices_by_type false s type_name).1.devices = s.devices ∧
    (get_devices_by_type false s type_name).1.warnings = s.warnings + 1 :=
  ⟨rfl, rfl, rfl, rfl, rfl, rfl, rfl, rfl, rfl, rfl, rfl, rfl, rfl, rfl, rfl, rfl,
   rfl, rfl, rfl, rfl⟩

/-- Hold counts accumulate across concatenated traces. -/
theorem heldAfter_append (l : Lk) (xs ys : List TAct) :
    ∀ d, heldAfter l d (xs ++ ys) = heldAfter l (heldAfter l d xs) ys := by
  induction xs with
  | nil => intro d; rfl
  | cons a t ih =>
    intro d
    cases a with
    | acquire l2 => simp [heldAfter, ih]
    | release l2 => simp [heldAfter, ih]
    | extCall tag => simp [heldAfter, ih]
    | cbInvoke => simp [heldAfter, ih]

/-- The discipline check decomposes across concatenated traces. -/
theorem disciplineOk_append (allow : Bool) (xs ys : List TAct) :
    ∀ d e, disciplineOk allow d e (xs ++ ys)
      = (disciplineOk allow d e xs
          && disciplineOk allow (heldAfter Lk.devLk d xs) (heldAfter Lk.evtLk e xs) ys) := by
  induction xs with
  | nil => intro d e; simp [disciplineOk, heldAfter]
  | cons a t ih =>
    intro d e
    cases a with
    | acquire l2 => cases l2 <;> simp [disciplineOk, heldAfter, ih]
    | release l2 => cases l2 <;> simp [disciplineOk, heldAfter, ih]
    | extCall tag => simp [disciplineOk, heldAfter, ih, Bool.and_assoc]
    | cbInvoke => simp [disciplineOk, heldAfter, ih, Bool.and_assoc]

/-- Concatenating traces that follow the code's discipline and end with
both locks free yields such a trace again. -/
theorem balancedOk_append (xs ys : List TAct) (hx : balancedOk xs) (hy : balancedOk ys) :
    balancedOk (xs ++ ys) := by
  obtain ⟨h1, h2, h3⟩ := hx
  obtain ⟨g1, g2, g3⟩ := hy
  refine ⟨?_, ?_, ?_⟩
  · rw [disciplineOk_append, h2, h3, h1, g1]
    rfl
  · rw [heldAfter_append, h2, g2]
  · rw [heldAfter_append, h3, g3]

/-- A single external call with no lock held is fine. -/
theorem balancedOk_ext (tag : String) : balancedOk [TAct.extCall tag] := by
  refine ⟨?_, rfl, rfl⟩
  simp [disciplineOk]

/-- An acquire-release pair leaves both locks free and calls nothing. -/
theorem balancedOk_lockpair (l : Lk) : balancedOk [TAct.acquire l, TAct.release l] := by
  cases l <;> exact ⟨rfl, rfl, rfl⟩

/-- Registration calls on the device handle pass the weakened discipline
under one held event-callbacks lock. -/
theorem disciplineOk_map_reg (n : Nat) :
    disciplineOk true 0 1
      (List.replicate n (TAct.extCall "device.register_event_callback")) = true := by
  induction n with
  | zero => rfl
  | succ m ih => simpa [List.replicate, disciplineOk] using ih

/-- External calls do not change lock hold counts. -/
theorem heldAfter_map_reg (l : Lk) (n : Nat) (d : Nat) :
    heldAfter l d (List.replicate n (TAct.extCall "device.register_event_callback")) = d := by
  induction n with
  | zero => rfl
  | succ m ih => simpa [List.replicate, heldAfter] using ih

/-- Callback invocations with no lock held are fine. -/
theorem disciplineOk_map_inv (n : Nat) :
    disciplineOk true 0 0 (List.replicate n TAct.cbInvoke) = true := by
  induction n with
  | zero => rfl
  | succ m ih => simpa [List.replicate, disciplineOk] using ih

/-- Callback invocations do not change lock hold counts. -/
theorem heldAfter_map_inv (l : Lk) (n : Nat) (d : Nat) :
    heldAfter l d (List.replicate n TAct.cbInvoke) = d := by
  induction n with
  | zero => rfl
  | succ m ih => simpa [List.replicate, heldAfter] using ih

/-- The reconciliation step preserves the code's lock discipline. -/
theorem insertAndAnnounce_balanced (s : MState) (a b : String) (v : Handle)
    (h : balancedOk s.trace) : balancedOk (insertAndAnnounce s a b v).1.trace := by
  obtain ⟨h1, h2, h3⟩ := h
  unfold insertAndAnnounce fire_event
  by_cases hc : dictContains s.devices a <;>
    simp [hc, balancedOk, disciplineOk_append, heldAfter_append, disciplineOk, heldAfter,
      disciplineOk_map_reg, heldAfter_map_reg, disciplineOk_map_inv, heldAfter_map_inv,
      h1, h2, h3]

/-- `_handle_device_discovered` preserves the code's lock discipline. -/
theorem handler_balanced (co : Collaborators) (s : MState) (d : Descriptor)
    (ph : Option Handle) (s2 : MState) (r : Option Handle)
    (h : handle_device_discovered co s d ph = Except.ok (s2, r))
    (hb : balancedOk s.trace) : balancedOk s2.trace := by
  unfold handle_device_discovered at h
  split at h
  · have h2 : _ = s2 := congrArg Prod.fst (Except.ok.inj h)
    rw [← h2]
    exact insertAndAnnounce_balanced _ _ _ _ (balancedOk_append _ _ hb (balancedOk_ext _))
  · split at h
    · split at h
      · exact absurd h (by simp)
      · have h2 : _ = s2 := congrArg Prod.fst (Except.ok.inj h)
        rw [← h2]
        exact insertAndAnnounce_balanced _ _ _ _ (balancedOk_append _ _ hb (balancedOk_ext _))
    · have h2 : _ = s2 := congrArg Prod.fst (Except.ok.inj h)
      rw [← h2]
      exact hb

/-- The sub-device loop preserves the code's lock discipline. -/
theorem subdevicesLoop_balanced (co : Collaborators) (parent : Handle) :
    ∀ (l : List Descriptor) (s s2 : MState),
      subdevicesLoop co parent s l = Except.ok s2 →
      balancedOk s.trace → balancedOk s2.trace := by
  intro l
  induction l with
  | nil =>
    intro s s2 h hb
    rw [subdevicesLoop] at h
    have h2 := Except.ok.inj h
    rw [← h2]
    exact hb
  | cons sd rest ih =>
    intro s s2 h hb
    rw [subdevicesLoop] at h
    cases hh : handle_device_discovered co s sd (some parent) with
    | error e => rw [hh] at h; cases h
    | ok p =>
      rw [hh] at h
      exact ih p.1 s2 h (handler_balanced co s sd (some parent) p.1 p.2 (by rw [hh]) hb)

/-- The discovery loop preserves the code's lock discipline. -/
theorem discoverLoop_balanced (co : Collaborators) (online_only : Bool) :
    ∀ (l : List Descriptor) (s s2 : MState),
      discoverLoop co online_only s l = Except.ok s2 →
      balancedOk s.trace → balancedOk s2.trace := by
  intro l
  induction l with
  | nil =>
    intro s s2 h hb
    rw [discoverLoop] at h
    have h2 := Except.ok.inj h
    rw [← h2]
    exact hb
  | cons d rest ih =>
    intro s s2 h hb
    rw [discoverLoop] at h
    by_cases hskip : (online_only && d.onlineStatus != 1) = true
    · rw [if_pos hskip] at h
      exact ih s s2 h hb
    · rw [if_neg hskip] at h
      cases hh : handle_device_discovered co s d none with
      | error e =>
        simp only [hh] at h
        exact Except.noConfusion h
      | ok p =>
        obtain ⟨s1, r⟩ := p
        have hb1 := handler_balanced co s d none s1 r hh hb
        cases r with
        | none =>
          simp only [hh] at h
          exact ih s1 s2 h hb1
        | some dv =>
          simp only [hh] at h
          by_cases hhub : dv.isHub = true
          · rw [if_pos hhub] at h
            cases hsl : subdevicesLoop co dv
                { s1 with httpCalls := s1.httpCalls ++ [HttpCall.listHubSubdevices dv.uuid],
                          trace := s1.trace ++ [TAct.extCall "http.list_hub_subdevices"] }
                (co.list_hub_subdevices dv.uuid) with
            | error e =>
              simp only [hsl] at h
              exact Except.noConfusion h
            | ok s3 =>
              simp only [hsl] at h
              have hb3 := subdevicesLoop_balanced co dv (co.list_hub_subdevices dv.uuid)
                _ s3 hsl (balancedOk_append _ _ hb1 (balancedOk_ext _))
              exact ih s3 s2 h hb3
          · rw [if_neg hhub] at h
            exact ih s1 s2 h hb1

/-- One discovery pass preserves the code's lock discipline. -/
theorem discover_devices_balanced (co : Collaborators) (online_only : Bool)
    (s s2 : MState) (h : discover_devices co online_only s = Except.ok s2)
    (hb : balancedOk s.trace) : balancedOk s2.trace := by
  unfold discover_devices at h
  exact discoverLoop_balanced co online_only co.list_devices _ s2 h
    (balancedOk_append _ _ hb (balancedOk_ext _))

/-- Push-notification dispatch preserves the code's lock discipline. -/
theorem dispatch_balanced (co : Collaborators) (s : MState) (msg : PushMessage)
    (fm : Bool) (s2 : MState)
    (h : dispatch_push_notification co s msg fm = Except.ok s2)
    (hb : balancedOk s.trace) : balancedOk s2.trace := by
  unfold dispatch_push_notification at h
  cases hseg : (splitSlash msg.fromField.data).get? 2 with
  | none =>
    rw [hseg] at h
    cases h
  | some seg =>
    simp only [hseg] at h
    have hb1 : balancedOk (s.trace ++ [TAct.acquire Lk.devLk, TAct.release Lk.devLk]) :=
      balancedOk_append _ _ hb (balancedOk_lockpair _)
    cases hdev : dictGet s.devices (String.mk seg) with
    | some dev =>
      simp only [hdev] at h
      have h2 := Except.ok.inj h
      rw [← h2]
      exact balancedOk_append _ _ hb1 (balancedOk_ext _)
    | none =>
      simp only [hdev] at h
      exact discover_devices_balanced co false _ s2 h hb1

/-- `_ensure_started` followed by a lock round trip preserves discipline. -/
theorem query_trace_balanced (connected : Bool) (s : MState)
    (hb : balancedOk s.trace) :
    balancedOk ((ensure_started connected s).trace
      ++ [TAct.acquire Lk.devLk, TAct.release Lk.devLk]) := by
  unfold ensure_started
  have hx : balancedOk (s.trace ++ [TAct.extCall "connection_status.check_status"]) :=
    balancedOk_append _ _ hb (balancedOk_ext _)
  by_cases hc : connected
  · simp only [hc]
    exact balancedOk_append _ _ (by simpa using hx) (balancedOk_lockpair _)
  · simp only [hc]
    exact balancedOk_append _ _ (by simpa [hc] using hx) (balancedOk_lockpair _)

/-- `_ensure_started` preserves the code's lock discipline. -/
theorem ensure_started_balanced (c : Bool) (s : MState) (hb : balancedOk s.trace) :
    balancedOk (ensure_started c s).trace := by
  cases c <;> exact balancedOk_append _ _ hb (balancedOk_ext _)

/-- C9 amended.  Every manager operation follows the weakened lock
discipline `disciplineOk true`: the Directory lock is never held across
any external-collaborator call or callback invocation, callback
invocations (the event fan-out) happen with neither lock held, and the
only external call ever made under the Event Bus lock is
`device.register_event_callback` on a newly inserted handle — which the
counterexample shows does violate the claim's blanket "outside both
locks". -/
theorem C9_amended_lock_discipline :
    (∀ (co : Collaborators) (s : MState) (d : Descriptor) (ph : Option Handle)
        (s2 : MState) (r : Option Handle),
      handle_device_discovered co s d ph = Except.ok (s2, r) →
      balancedOk s.trace → balancedOk s2.trace) ∧
    (∀ (co : Collaborators) (online_only : Bool) (s s2 : MState),
      discover_devices co online_only s = Except.ok s2 →
      balancedOk s.trace → balancedOk s2.trace) ∧
    (∀ (co : Collaborators) (s : MState) (msg : PushMessage) (fm : Bool) (s2 : MState),
      dispatch_push_notification co s msg fm = Except.ok s2 →
      balancedOk s.trace → balancedOk s2.trace) ∧
    (∀ (c : Bool) (s : MState) (u : String), balancedOk s.trace →
      balancedOk (get_device_by_uuid c s u).1.trace) ∧
    (∀ (c : Bool) (s : MState) (nm : String), balancedOk s.trace →
      balancedOk (get_device_by_name c s nm).1.trace) ∧
    (∀ (c : Bool) (s : MState), balancedOk s.trace →
      balancedOk (get_supported_devices c s).1.trace) ∧
    (∀ (c : Bool) (s : MState) (k : Handle → Bool), balancedOk s.trace →
      balancedOk (get_devices_by_kind c s k).1.trace) ∧
    (∀ (c : Bool) (s : MState) (t : String), balancedOk s.trace →
      balancedOk (get_devices_by_type c s t).1.trace) := by
  refine ⟨handler_balanced, discover_devices_balanced, dispatch_balanced,
    ?_, ?_, ?_, ?_, ?_⟩
  · intro c s u hb
    exact query_trace_balanced c s hb
  · intro c s nm hb
    exact query_trace_balanced c s hb
  · intro c s hb
    exact ensure_started_balanced c s hb
  · intro c s k hb
    exact query_trace_balanced c s hb
  · intro c s t hb
    exact query_trace_balanced c s hb

/-- C9 amended witness: a uuid query against the empty state keeps the
trace balanced. -/
theorem C9_amended_lock_discipline_witness :
    balancedOk mstate0.trace ∧
    balancedOk (get_device_by_uuid false mstate0 "x").1.trace :=
  ⟨⟨rfl, rfl, rfl⟩,
   C9_amended_lock_discipline.2.2.2.1 false mstate0 "x" ⟨rfl, rfl, rfl⟩⟩

/-- C10.  The sub-device branch of the handler evaluates
`parent_hub.uuid` unconditionally, so a descriptor carrying the
sub-device shape but not the full-device shape, processed with no parent
hub supplied — as a top-level listing entry would be — raises an
`AttributeError` instead of being logged and skipped; the log-and-skip
path is taken exactly by descriptors matching neither shape, which are
dropped with one warning and no state change. -/
theorem C10_subdevice_branch_requires_parent (co : Collaborators) (s : MState)
    (d e : Descriptor)
    (hsub : d.subDeviceType.isSome ∧ d.subDeviceId.isSome)
    (hnotfull : ¬ (d.deviceType.isSome ∧ d.uuid.isSome))
    (hefull : ¬ (e.deviceType.isSome ∧ e.uuid.isSome))
    (hesub : ¬ (e.subDeviceType.isSome ∧ e.subDeviceId.isSome)) :
    handle_device_discovered co s d none = Except.error PyErr.attributeError ∧
    ∀ (ph : Option Handle),
      handle_device_discovered co s e ph
        = Except.ok ({ s with warnings := s.warnings + 1 }, none) := by
  constructor
  · unfold handle_device_discovered
    obtain ⟨st, hst⟩ := Option.isSome_iff_exists.mp hsub.1
    obtain ⟨si, hsi⟩ := Option.isSome_iff_exists.mp hsub.2
    rcases hdt : d.deviceType with _ | t <;> rcases hdu : d.uuid with _ | u <;>
      simp_all [hst, hsi]
  · intro ph
    unfold handle_device_discovered
    rcases hdt : e.deviceType with _ | t <;> rcases hdu : e.uuid with _ | u <;>
      rcases hst : e.subDeviceType with _ | st <;> rcases hsi : e.subDeviceId with _ | si <;>
        simp_all

/-- A bare sub-device descriptor as it would appear in a top-level
listing. -/
def dBare : Descriptor :=
  { deviceType := none, uuid := none, subDeviceType := some "mts100",
    subDeviceId := some "s", onlineStatus := 1, devName := "Valve" }

/-- A descriptor matching neither shape. -/
def dJunk : Descriptor :=
  { deviceType := none, uuid := none, subDeviceType := none,
    subDeviceId := none, onlineStatus := 0, devName := "junk" }

/-- C10 witness: the bare sub-device descriptor raises, the shapeless one
is logged and skipped. -/
theorem C10_subdevice_branch_requires_parent_witness :
    handle_device_discovered coHS mstate0 dBare none
      = Except.error PyErr.attributeError ∧
    handle_device_discovered coHS mstate0 dJunk none
      = Except.ok ({ mstate0 with warnings := mstate0.warnings + 1 }, none) := by
  have h := C10_subdevice_branch_requires_parent coHS mstate0 dBare dJunk
    (by decide) (by decide) (by decide) (by decide)
  exact ⟨h.1, h.2 none⟩
